import Mathlib

/-!
# Verification of the Binance market-data fetcher (`src/fetcher/binance.py`)

A shallow embedding of the fetcher module into Lean 4.  Exchange payload
values are modelled as follows: JSON strings stay `String`; millisecond
epoch timestamps are `Int`; exact decimal values (Python `Decimal`) and
floating-point columns are modelled as `ℚ` (the claims only copy and
compare these values, never perform float rounding); a Python function that
can raise is `Option`- or `Except`-valued, with `none` / `.error` standing
for the raised exception; a `pandas`/`polars` table is a `List` of row
structures, the index column being the first field of the row structure.
-/

/-- `digitsToNat cs` folds a list of decimal digit characters into a `Nat`,
most significant digit first (the usual positional reading). -/
def digitsToNat (cs : List Char) : Nat :=
  cs.foldl (fun n c => 10 * n + (c.toNat - 48)) 0

/-- Parsing of an unsigned decimal numeral `digits[.digits]` (at least one
digit overall) into an exact rational.  This is the common numeric core of
Python's `Decimal` constructor and of `pd.to_numeric` on the plain decimal
strings the exchange sends. -/
def parseUnsignedDecimal (cs : List Char) : Option ℚ :=
  let intPart := cs.takeWhile (·.isDigit)
  let rest := cs.dropWhile (·.isDigit)
  match rest with
  | [] =>
    if intPart.isEmpty then none
    else some ((digitsToNat intPart : ℚ))
  | '.' :: frac =>
    if frac.all (·.isDigit) && !(intPart.isEmpty && frac.isEmpty) then
      some ((digitsToNat intPart : ℚ) + (digitsToNat frac : ℚ) / (10 : ℚ) ^ frac.length)
    else none
  | _ => none

/-- Parsing of an optionally signed decimal string into an exact rational;
`none` models a raised conversion error (e.g. on the placeholder `"-"`). -/
def parseDecimalString (s : String) : Option ℚ :=
  match s.toList with
  | '-' :: rest => (parseUnsignedDecimal rest).map (fun q => -q)
  | '+' :: rest => parseUnsignedDecimal rest
  | cs => parseUnsignedDecimal cs

/-- Python's `Decimal(str)` constructor on the decimal strings of exchange
payloads; `none` models the raised `InvalidOperation`/`TypeError` (the
latter is what `Decimal(None)` raises when a filter lookup returned
`None`). -/
def Decimal (s : String) : Option ℚ :=
  parseDecimalString s

/-- `pd.to_numeric(x, errors='coerce')` on a string: a parse failure yields
the missing sentinel (`NaN` in pandas, `none` here) instead of raising. -/
def pd_to_numeric_coerce (s : String) : Option ℚ :=
  parseDecimalString s

/-- One entry of a symbol-info `filters` list: a `filterType` tag plus the
remaining fields, modelled as an association list of field name to raw
string value. -/
structure SymFilter where
  filterType : String
  fields : List (String × String)
deriving DecidableEq, Repr

/-- `_get_from_filters(filters, filter_type, field_name)`: the value of
field `field_name` of the first filter whose `filterType` matches.  The
Python function returns `None` when no filter matches (and raises
`KeyError` when the field is absent from the matching filter); both escape
the enclosing parse, so both are `none` here. -/
def _get_from_filters (filters : List SymFilter) (filter_type field_name : String) :
    Option String :=
  match filters.find? (fun f => f.filterType == filter_type) with
  | some f => f.fields.lookup field_name
  | none => none

/-- A raw symbol-info record from `/exchangeinfo`, as a Python dict.
Keys that only some venue variants carry are `Option`-valued; a parser
reading an absent key models the raised `KeyError` by failing. -/
structure SymbolInfo where
  symbol : String
  contractType : Option String
  status : Option String
  contractStatus : Option String
  baseAsset : String
  quoteAsset : String
  marginAsset : Option String
  contractSize : Option String
  filters : List SymFilter
deriving DecidableEq, Repr

/-- The canonical trading-rule record the three venue parsers produce.
A dict key absent from a variant's output is an `Option` field set to
`none` (`contract_type` and `margin_asset` for spot, `min_notional_value`
for coin-margined futures). -/
structure TradingRule where
  symbol : String
  contract_type : Option String
  status : String
  base_asset : String
  quote_asset : String
  margin_asset : Option String
  price_tick : ℚ
  lot_size : ℚ
  min_notional_value : Option ℚ
deriving DecidableEq, Repr

/-- `_parse_usdt_futures_syminfo(info)`; `none` models any exception
raised while building the dict literal (missing key, missing filter,
unparsable decimal). -/
def _parse_usdt_futures_syminfo (info : SymbolInfo) : Option TradingRule := do
  let filters := info.filters
  let contract_type ← info.contractType
  let status ← info.status
  let margin_asset ← info.marginAsset
  let price_tick ← (_get_from_filters filters "PRICE_FILTER" "tickSize").bind Decimal
  let lot_size ← (_get_from_filters filters "LOT_SIZE" "stepSize").bind Decimal
  let mnv ← (_get_from_filters filters "MIN_NOTIONAL" "notional").bind Decimal
  some {
    symbol := info.symbol
    contract_type := some contract_type
    status := status
    base_asset := info.baseAsset
    quote_asset := info.quoteAsset
    margin_asset := some margin_asset
    price_tick := price_tick
    lot_size := lot_size
    min_notional_value := some mnv }

/-- `_parse_coin_futures_syminfo(info)`: status comes from
`contractStatus`, lot size from the `contractSize` field, and the output
dict has no `min_notional_value` key. -/
def _parse_coin_futures_syminfo (info : SymbolInfo) : Option TradingRule := do
  let filters := info.filters
  let contract_type ← info.contractType
  let status ← info.contractStatus
  let margin_asset ← info.marginAsset
  let price_tick ← (_get_from_filters filters "PRICE_FILTER" "tickSize").bind Decimal
  let lot_size ← (info.contractSize).bind Decimal
  some {
    symbol := info.symbol
    contract_type := some contract_type
    status := status
    base_asset := info.baseAsset
    quote_asset := info.quoteAsset
    margin_asset := some margin_asset
    price_tick := price_tick
    lot_size := lot_size
    min_notional_value := none }

/-- `_parse_spot_syminfo(info)`: no `contract_type`/`margin_asset` keys in
the output dict, and minimum notional comes from the `NOTIONAL` filter's
`minNotional` field. -/
def _parse_spot_syminfo (info : SymbolInfo) : Option TradingRule := do
  let filters := info.filters
  let status ← info.status
  let price_tick ← (_get_from_filters filters "PRICE_FILTER" "tickSize").bind Decimal
  let lot_size ← (_get_from_filters filters "LOT_SIZE" "stepSize").bind Decimal
  let mnv ← (_get_from_filters filters "NOTIONAL" "minNotional").bind Decimal
  some {
    symbol := info.symbol
    contract_type := none
    status := status
    base_asset := info.baseAsset
    quote_asset := info.quoteAsset
    margin_asset := none
    price_tick := price_tick
    lot_size := lot_size
    min_notional_value := some mnv }

/-- `BinanceFetcher.TYPE_MAP`: venue type tag to symbol-info parser. -/
def TYPE_MAP : List (String × (SymbolInfo → Option TradingRule)) :=
  [("usdt_futures", _parse_usdt_futures_syminfo),
   ("coin_futures", _parse_coin_futures_syminfo),
   ("spot", _parse_spot_syminfo)]

/-- Modelled from the spec: the interval-to-duration collaborator
`convert_interval_to_timedelta` is imported from the `util` module, which
is not part of the source tree.  Per the spec it is "a total function over
a fixed set of recognized tags" that "fails for unrecognized tags"
(e.g. "1h" is one hour, "1d" is 24 hours).  Durations are in epoch
milliseconds; `none` models the failure on an unrecognized tag. -/
def convert_interval_to_timedelta (interval : String) : Option Int :=
  match interval with
  | "1m" => some 60000
  | "3m" => some 180000
  | "5m" => some 300000
  | "15m" => some 900000
  | "30m" => some 1800000
  | "1h" => some 3600000
  | "2h" => some 7200000
  | "4h" => some 14400000
  | "6h" => some 21600000
  | "8h" => some 28800000
  | "12h" => some 43200000
  | "1d" => some 86400000
  | _ => none

/-- One raw kline record from `/klines`: a positional 12-field array.
Timestamps and the trade count arrive as JSON integers, all other numeric
fields as decimal strings; field 11 is the exchange's `ignore` marker.
The Lean keyword `open` forces the price field names `open_` etc. -/
structure Kline where
  candle_begin_time : Int
  open_ : String
  high : String
  low : String
  close : String
  volume : String
  close_time : Int
  quote_volume : String
  trade_num : Int
  taker_buy_base_asset_volume : String
  taker_buy_quote_asset_volume : String
  ignore : String
deriving DecidableEq, Repr

/-- A kline after column typing (`df.astype`/polars schema) and dropping of
the `close_time` and `ignore` columns, before the end-time column is
derived. -/
structure ParsedKline where
  candle_begin_time : Int
  open_ : ℚ
  high : ℚ
  low : ℚ
  close : ℚ
  volume : ℚ
  quote_volume : ℚ
  trade_num : Int
  taker_buy_base_asset_volume : ℚ
  taker_buy_quote_asset_volume : ℚ
deriving DecidableEq, Repr

/-- Row of the table produced by `get_candle_with_original_pandas`, indexed
by `candle_end_time` (the `set_index` column is the first field).  That
variant casts every numeric column, `trade_num` included, to float. -/
structure CandleTableRow where
  candle_end_time : Int
  candle_begin_time : Int
  open_ : ℚ
  high : ℚ
  low : ℚ
  close : ℚ
  volume : ℚ
  quote_volume : ℚ
  trade_num : ℚ
  taker_buy_base_asset_volume : ℚ
  taker_buy_quote_asset_volume : ℚ
deriving DecidableEq, Repr

/-- Row of the tables produced by `get_candle_with_pandas` and
`get_candle_with_polar`, indexed by `candle_end_time`; these two variants
keep `trade_num` an integer. -/
structure CandleTableRowI where
  candle_end_time : Int
  candle_begin_time : Int
  open_ : ℚ
  high : ℚ
  low : ℚ
  close : ℚ
  volume : ℚ
  quote_volume : ℚ
  trade_num : Int
  taker_buy_base_asset_volume : ℚ
  taker_buy_quote_asset_volume : ℚ
deriving DecidableEq, Repr

/-- Row-by-row effectful map over a list, failing as soon as one element
fails; models a columnwise `astype`/schema cast over a whole frame, which
raises if any cell is unconvertible. -/
def traverseOption (f : α → Option β) : List α → Option (List β)
  | [] => some []
  | a :: l => do
    let b ← f a
    let t ← traverseOption f l
    some (b :: t)

/-- `float(x)` as applied by `df[col].astype(float)` to a raw decimal
string cell; `none` models the raised `ValueError`. -/
def pyFloat (s : String) : Option ℚ :=
  parseDecimalString s

/-- The column typing of `get_candle_with_pandas` (its `dtypes` map) and of
`get_candle_with_polar` (its polars schema): prices and volumes to float,
`candle_begin_time` and `trade_num` kept integral. -/
def parseKlineTyped (k : Kline) : Option ParsedKline := do
  let o ← pyFloat k.open_
  let h ← pyFloat k.high
  let l ← pyFloat k.low
  let c ← pyFloat k.close
  let v ← pyFloat k.volume
  let qv ← pyFloat k.quote_volume
  let tb ← pyFloat k.taker_buy_base_asset_volume
  let tq ← pyFloat k.taker_buy_quote_asset_volume
  some {
    candle_begin_time := k.candle_begin_time
    open_ := o
    high := h
    low := l
    close := c
    volume := v
    quote_volume := qv
    trade_num := k.trade_num
    taker_buy_base_asset_volume := tb
    taker_buy_quote_asset_volume := tq }

/-- `df['candle_end_time'] = df['candle_begin_time'] + delta` followed by
`df.set_index('candle_end_time')`. -/
def addEndTime (delta : Int) (p : ParsedKline) : CandleTableRowI :=
  { candle_end_time := p.candle_begin_time + delta
    candle_begin_time := p.candle_begin_time
    open_ := p.open_
    high := p.high
    low := p.low
    close := p.close
    volume := p.volume
    quote_volume := p.quote_volume
    trade_num := p.trade_num
    taker_buy_base_asset_volume := p.taker_buy_base_asset_volume
    taker_buy_quote_asset_volume := p.taker_buy_quote_asset_volume }

/-- A kline after the column typing of `get_candle_with_original_pandas`,
which casts every kept numeric column — `trade_num` included — to float
(an int-to-float cast always succeeds, preserving the value at these
magnitudes), before the end-time column is derived. -/
structure ParsedKlineF where
  candle_begin_time : Int
  open_ : ℚ
  high : ℚ
  low : ℚ
  close : ℚ
  volume : ℚ
  quote_volume : ℚ
  trade_num : ℚ
  taker_buy_base_asset_volume : ℚ
  taker_buy_quote_asset_volume : ℚ
deriving DecidableEq, Repr

/-- The column typing of `get_candle_with_original_pandas`: the
`astype(float)` loop over all kept columns, `trade_num` included. -/
def parseKlineFloat (k : Kline) : Option ParsedKlineF := do
  let o ← pyFloat k.open_
  let h ← pyFloat k.high
  let l ← pyFloat k.low
  let c ← pyFloat k.close
  let v ← pyFloat k.volume
  let qv ← pyFloat k.quote_volume
  let tb ← pyFloat k.taker_buy_base_asset_volume
  let tq ← pyFloat k.taker_buy_quote_asset_volume
  some {
    candle_begin_time := k.candle_begin_time
    open_ := o
    high := h
    low := l
    close := c
    volume := v
    quote_volume := qv
    trade_num := (k.trade_num : ℚ)
    taker_buy_base_asset_volume := tb
    taker_buy_quote_asset_volume := tq }

/-- `BinanceFetcher.get_candle_with_original_pandas(klines, interval)`:
bind positional fields to columns, drop `ignore`/`close_time`, cast
`candle_begin_time` to int64 then UTC datetime, cast every other kept
column (including `trade_num`) to float, derive
`candle_end_time = candle_begin_time + timedelta` and set it as index.
No sorting step.  `none` models a raised conversion or interval error. -/
def get_candle_with_original_pandas (klines : List Kline) (interval : String) :
    Option (List CandleTableRow) := do
  let rows ← traverseOption parseKlineFloat klines
  let delta ← convert_interval_to_timedelta interval
  some (rows.map (fun p =>
    ({ candle_end_time := p.candle_begin_time + delta
       candle_begin_time := p.candle_begin_time
       open_ := p.open_
       high := p.high
       low := p.low
       close := p.close
       volume := p.volume
       quote_volume := p.quote_volume
       trade_num := p.trade_num
       taker_buy_base_asset_volume := p.taker_buy_base_asset_volume
       taker_buy_quote_asset_volume := p.taker_buy_quote_asset_volume } : CandleTableRow)))

/-- The key order used by both sorting candle variants:
non-decreasing `candle_begin_time`. -/
def beginLE (a b : ParsedKline) : Prop :=
  a.candle_begin_time ≤ b.candle_begin_time

instance : DecidableRel beginLE := fun a b =>
  inferInstanceAs (Decidable (a.candle_begin_time ≤ b.candle_begin_time))

instance : IsTotal ParsedKline beginLE :=
  ⟨fun a b => Int.le_total a.candle_begin_time b.candle_begin_time⟩

instance : IsTrans ParsedKline beginLE :=
  ⟨fun _ _ _ hab hbc => le_trans hab hbc⟩

/-- The strict begin-time order; antisymmetric (vacuously), which makes a
sorted permutation unique when begin-times are pairwise distinct. -/
def beginLT (a b : ParsedKline) : Prop :=
  a.candle_begin_time < b.candle_begin_time

instance : IsAntisymm ParsedKline beginLT :=
  ⟨fun _ _ h1 h2 => absurd (lt_trans h1 h2) (lt_irrefl _)⟩

/-- `BinanceFetcher.get_candle_with_pandas(klines, interval)`: like the
original variant but applies the `dtypes` map (keeping `trade_num`
integral) and sorts by `candle_begin_time` before deriving the end time.
`df.sort_values` is modelled by an explicit comparison sort on the begin
key (pandas' default quicksort fixes no tie order; ties do not arise in
valid, duplicate-free payloads). -/
def get_candle_with_pandas (klines : List Kline) (interval : String) :
    Option (List CandleTableRowI) := do
  let parsed ← traverseOption parseKlineTyped klines
  let sorted := List.insertionSort beginLE parsed
  let delta ← convert_interval_to_timedelta interval
  some (sorted.map (addEndTime delta))

/-- `BinanceFetcher.get_candle_with_polar(klines, interval)`: the polars
route — schema cast, drop, sort by `candle_begin_time`, derive the end
time, collect back to pandas and re-set the index.  Polars' sort is
modelled by a (different) comparison sort on the same begin key. -/
def get_candle_with_polar (klines : List Kline) (interval : String) :
    Option (List CandleTableRowI) := do
  let parsed ← traverseOption parseKlineTyped klines
  let sorted := parsed.mergeSort (fun a b => decide (beginLE a b))
  let delta ← convert_interval_to_timedelta interval
  some (sorted.map (addEndTime delta))

/-- One entry of the `/premiumIndex` listing, the two fields
`get_funding_rate` reads. -/
structure FundingEntry where
  symbol : String
  lastFundingRate : String
deriving DecidableEq, Repr

/-- One row of the funding-rate table; `fundingRate = none` is the
"missing" sentinel (pandas `NaN`) for an unparsable rate string. -/
structure FundingRow where
  symbol : String
  fundingRate : Option ℚ
deriving DecidableEq, Repr

/-- The market-transport collaborator (`create_binance_market_api` lives in
the external `api.binance` module): rate-limit constants plus the request
operations, modelled as thunks/functions so a theorem quantifying over the
whole record shows a result independent of — hence computed without — any
transport request. -/
structure MarketApi where
  MAX_MINUTE_WEIGHT : Int
  WEIGHT_EFFICIENT_ONCE_CANDLES : Int
  aioreq_time_and_weight : Unit → Int × Int
  aioreq_exchange_info : Unit → List SymbolInfo
  aioreq_klines : String → String → List Kline
  aioreq_premium_index : Unit → List FundingEntry

/-- The fetcher facade: venue type tag, bound transport, and the parser
variant selected from `TYPE_MAP` at construction. -/
structure BinanceFetcher where
  trade_type : String
  market_api : MarketApi
  syminfo_parse_func : SymbolInfo → Option TradingRule

/-- `BinanceFetcher.__init__(type_, session)`: create the market api for
the type, then select the parser from `TYPE_MAP`, raising
`ValueError('Type ... not supported')` for an unknown venue type.  The
factory is an opaque collaborator (a plain function here); no request
operation of the resulting `MarketApi` is invoked. -/
def BinanceFetcher.init (type_ : String)
    (create_binance_market_api : String → MarketApi) :
    Except String BinanceFetcher :=
  let market_api := create_binance_market_api type_
  match TYPE_MAP.lookup type_ with
  | some f =>
    .ok { trade_type := type_, market_api := market_api, syminfo_parse_func := f }
  | none => .error ("Type " ++ type_ ++ " not supported")

/-- The `results` dict of `get_exchange_info`, built by the loop
`results[info['symbol']] = parse(info)`: each step overwrites the binding
for that symbol; a parse exception aborts the whole call.  The dict is
modelled by its lookup function. -/
def buildDict (parse : SymbolInfo → Option TradingRule) :
    List SymbolInfo → (String → Option TradingRule) →
    Option (String → Option TradingRule)
  | [], results => some results
  | info :: rest, results => do
    let rule ← parse info
    buildDict parse rest (fun s => if s = info.symbol then some rule else results s)

/-- `BinanceFetcher.get_exchange_info()`: fetch the symbol listing (via the
retry collaborator, which is semantically the identity on an eventually
successful payload) and fold every entry through the bound parser into the
`results` dict. -/
def BinanceFetcher.get_exchange_info (self : BinanceFetcher) :
    Option (String → Option TradingRule) :=
  buildDict self.syminfo_parse_func (self.market_api.aioreq_exchange_info ())
    (fun _ => none)

/-- `BinanceFetcher.get_candle(symbol, interval)`: fetch the klines (via
the retry collaborator) and normalize with
`get_candle_with_original_pandas` — note: not with one of the sorting
variants. -/
def BinanceFetcher.get_candle (self : BinanceFetcher)
    (symbol interval : String) : Option (List CandleTableRow) :=
  get_candle_with_original_pandas (self.market_api.aioreq_klines symbol interval)
    interval

/-- `BinanceFetcher.get_funding_rate()`: raise
`RuntimeError('Cannot request funding rate for spot')` for a spot-bound
fetcher, before the premium-index request; otherwise fetch the listing and
coerce each `lastFundingRate` with `pd.to_numeric(..., errors='coerce')`. -/
def BinanceFetcher.get_funding_rate (self : BinanceFetcher) :
    Except String (List FundingRow) :=
  if self.trade_type == "spot" then
    .error "Cannot request funding rate for spot"
  else
    .ok ((self.market_api.aioreq_premium_index ()).map (fun d =>
      { symbol := d.symbol, fundingRate := pd_to_numeric_coerce d.lastFundingRate }))

/-! ## Concrete payloads used by witnesses and counterexamples -/

/-- A one-hour kline beginning at epoch-ms 3_600_000. -/
def cK1 : Kline :=
  { candle_begin_time := 3600000, open_ := "1", high := "2", low := "3",
    close := "4", volume := "5", close_time := 7199999, quote_volume := "6",
    trade_num := 7, taker_buy_base_asset_volume := "8",
    taker_buy_quote_asset_volume := "9", ignore := "0" }

/-- A one-hour kline beginning at epoch-ms 0. -/
def cK2 : Kline :=
  { candle_begin_time := 0, open_ := "1", high := "2", low := "3",
    close := "4", volume := "5", close_time := 3599999, quote_volume := "6",
    trade_num := 7, taker_buy_base_asset_volume := "8",
    taker_buy_quote_asset_volume := "9", ignore := "0" }

/-- The spec's end-to-end candle example batch, in reverse time order. -/
def cKlines : List Kline := [cK1, cK2]

/-- The same batch already sorted by begin-time. -/
def cKlinesSorted : List Kline := [cK2, cK1]

/-- Normalized row for `cK1` under interval "1h". -/
def cRow1 : CandleTableRow :=
  { candle_end_time := 7200000, candle_begin_time := 3600000, open_ := 1,
    high := 2, low := 3, close := 4, volume := 5, quote_volume := 6,
    trade_num := 7, taker_buy_base_asset_volume := 8,
    taker_buy_quote_asset_volume := 9 }

/-- Normalized row for `cK2` under interval "1h". -/
def cRow2 : CandleTableRow :=
  { candle_end_time := 3600000, candle_begin_time := 0, open_ := 1,
    high := 2, low := 3, close := 4, volume := 5, quote_volume := 6,
    trade_num := 7, taker_buy_base_asset_volume := 8,
    taker_buy_quote_asset_volume := 9 }

/-- A USDT-futures symbol-info record whose `PRICE_FILTER` carries a zero
`tickSize` — a payload the parser accepts without complaint. -/
def c3info : SymbolInfo :=
  { symbol := "XUSDT", contractType := some "PERPETUAL",
    status := some "TRADING", contractStatus := none, baseAsset := "X",
    quoteAsset := "USDT", marginAsset := some "USDT", contractSize := none,
    filters := [⟨"PRICE_FILTER", [("tickSize", "0")]⟩,
                ⟨"LOT_SIZE", [("stepSize", "0.001")]⟩,
                ⟨"MIN_NOTIONAL", [("notional", "5")]⟩] }

/-- The spec's end-to-end USDT-futures symbol-info example
(tickSize "0.10", stepSize "0.001", notional "5"). -/
def c3goodInfo : SymbolInfo :=
  { symbol := "BTCUSDT", contractType := some "PERPETUAL",
    status := some "TRADING", contractStatus := none, baseAsset := "BTC",
    quoteAsset := "USDT", marginAsset := some "USDT", contractSize := none,
    filters := [⟨"PRICE_FILTER", [("tickSize", "0.10")]⟩,
                ⟨"LOT_SIZE", [("stepSize", "0.001")]⟩,
                ⟨"MIN_NOTIONAL", [("notional", "5")]⟩] }

/-- The trading rule the example record parses to. -/
def c3goodRule : TradingRule :=
  { symbol := "BTCUSDT", contract_type := some "PERPETUAL",
    status := "TRADING", base_asset := "BTC", quote_asset := "USDT",
    margin_asset := some "USDT", price_tick := 1/10, lot_size := 1/1000,
    min_notional_value := some 5 }

/-- A symbol-info record whose filters list has no `PRICE_FILTER` entry. -/
def c5info : SymbolInfo :=
  { symbol := "YUSDT", contractType := some "PERPETUAL",
    status := some "TRADING", contractStatus := some "TRADING",
    baseAsset := "Y", quoteAsset := "USDT", marginAsset := some "USDT",
    contractSize := some "10",
    filters := [⟨"LOT_SIZE", [("stepSize", "0.001")]⟩,
                ⟨"MIN_NOTIONAL", [("notional", "5")]⟩,
                ⟨"NOTIONAL", [("minNotional", "5")]⟩] }

/-- A symbol-info record whose filters list has a `PRICE_FILTER` entry but
no `LOT_SIZE` entry. -/
def c5infoNoLot : SymbolInfo :=
  { symbol := "ZUSDT", contractType := some "PERPETUAL",
    status := some "TRADING", contractStatus := some "TRADING",
    baseAsset := "Z", quoteAsset := "USDT", marginAsset := some "USDT",
    contractSize := some "10",
    filters := [⟨"PRICE_FILTER", [("tickSize", "0.1")]⟩,
                ⟨"MIN_NOTIONAL", [("notional", "5")]⟩,
                ⟨"NOTIONAL", [("minNotional", "5")]⟩] }

/-- A transport stub whose premium-index request returns the spec's funding
example listing. -/
def c7api : MarketApi :=
  { MAX_MINUTE_WEIGHT := 2400, WEIGHT_EFFICIENT_ONCE_CANDLES := 2,
    aioreq_time_and_weight := fun _ => (0, 0),
    aioreq_exchange_info := fun _ => [],
    aioreq_klines := fun _ _ => [],
    aioreq_premium_index := fun _ =>
      [⟨"BTCUSDT", "0.0001"⟩, ⟨"XYZUSDT", "-"⟩] }

/-- A fetcher bound to the USDT-futures venue over the `c7api` stub. -/
def c7fetcher : BinanceFetcher :=
  { trade_type := "usdt_futures", market_api := c7api,
    syminfo_parse_func := _parse_usdt_futures_syminfo }

/-- A transport stub with empty responses, for construction witnesses. -/
def dummyApi : MarketApi :=
  { MAX_MINUTE_WEIGHT := 0, WEIGHT_EFFICIENT_ONCE_CANDLES := 0,
    aioreq_time_and_weight := fun _ => (0, 0),
    aioreq_exchange_info := fun _ => [],
    aioreq_klines := fun _ _ => [],
    aioreq_premium_index := fun _ => [] }

/-- First spot symbol-info entry with symbol "AAA". -/
def c10infoA1 : SymbolInfo :=
  { symbol := "AAA", contractType := none, status := some "TRADING",
    contractStatus := none, baseAsset := "A", quoteAsset := "USDT",
    marginAsset := none, contractSize := none,
    filters := [⟨"PRICE_FILTER", [("tickSize", "1")]⟩,
                ⟨"LOT_SIZE", [("stepSize", "1")]⟩,
                ⟨"NOTIONAL", [("minNotional", "5")]⟩] }

/-- Second entry bearing the same symbol "AAA" but a different status. -/
def c10infoA2 : SymbolInfo :=
  { symbol := "AAA", contractType := none, status := some "BREAK",
    contractStatus := none, baseAsset := "A", quoteAsset := "USDT",
    marginAsset := none, contractSize := none,
    filters := [⟨"PRICE_FILTER", [("tickSize", "1")]⟩,
                ⟨"LOT_SIZE", [("stepSize", "1")]⟩,
                ⟨"NOTIONAL", [("minNotional", "5")]⟩] }

/-- An entry with the distinct symbol "BBB". -/
def c10infoB : SymbolInfo :=
  { symbol := "BBB", contractType := none, status := some "TRADING",
    contractStatus := none, baseAsset := "B", quoteAsset := "USDT",
    marginAsset := none, contractSize := none,
    filters := [⟨"PRICE_FILTER", [("tickSize", "1")]⟩,
                ⟨"LOT_SIZE", [("stepSize", "1")]⟩,
                ⟨"NOTIONAL", [("minNotional", "5")]⟩] }

/-- The rule the duplicated symbol "AAA" must map to: the parse of the
last "AAA" entry in the listing. -/
def c10ruleA2 : TradingRule :=
  { symbol := "AAA", contract_type := none, status := "BREAK",
    base_asset := "A", quote_asset := "USDT", margin_asset := none,
    price_tick := 1, lot_size := 1, min_notional_value := some 5 }

/-- A spot fetcher whose exchange-info listing repeats symbol "AAA". -/
def c10fetcher : BinanceFetcher :=
  { trade_type := "spot",
    market_api :=
      { dummyApi with
        aioreq_exchange_info := fun _ => [c10infoA1, c10infoA2, c10infoB] },
    syminfo_parse_func := _parse_spot_syminfo }

/-- Bool-valued check that an optional raw string, if present and parsing
as a decimal, denotes a strictly positive value; used to state the data
assumption under which the parsers' outputs are positive. -/
def positiveDecimalStr (o : Option String) : Bool :=
  match o with
  | none => true
  | some s =>
    match Decimal s with
    | none => true
    | some q => decide (0 < q)

/-! ## Helper lemmas -/


/-- Case analysis on the venue dispatch table: a successful `TYPE_MAP`
lookup returns one of the three parser variants, for the matching tag. -/
theorem TYPE_MAP_lookup_cases (variant : String)
    (parse : SymbolInfo → Option TradingRule)
    (hv : TYPE_MAP.lookup variant = some parse) :
    (variant = "usdt_futures" ∧ parse = _parse_usdt_futures_syminfo) ∨
    (variant = "coin_futures" ∧ parse = _parse_coin_futures_syminfo) ∨
    (variant = "spot" ∧ parse = _parse_spot_syminfo) := by
  simp only [TYPE_MAP, List.lookup] at hv
  split at hv
  · exact Or.inl ⟨by rename_i hb; exact eq_of_beq hb, (Option.some.injEq _ _).mp hv.symm⟩
  · split at hv
    · exact Or.inr (Or.inl ⟨by rename_i hb; exact eq_of_beq hb,
        (Option.some.injEq _ _).mp hv.symm⟩)
    · split at hv
      · exact Or.inr (Or.inr ⟨by rename_i hb; exact eq_of_beq hb,
          (Option.some.injEq _ _).mp hv.symm⟩)
      · exact absurd hv (by simp)

/-- The spec's USDT-futures example record parses to `c3goodRule`
(price_tick 0.10, lot_size 0.001, min_notional_value 5). -/
theorem c3goodInfo_parses :
    _parse_usdt_futures_syminfo c3goodInfo = some c3goodRule := by
  simp +decide [_parse_usdt_futures_syminfo, _get_from_filters, Decimal,
    parseDecimalString, parseUnsignedDecimal, digitsToNat, c3goodInfo, c3goodRule]
  try norm_num

/-! ## Claim theorems -/

/-- C4: for every raw symbol-info record successfully parsed, the
resulting `TradingRule` carries the `min_notional_value` field iff the
venue variant is `spot` or `usdt_futures`; the `coin_futures` parser's
output never carries it. -/
theorem min_notional_value_presence_iff (variant : String)
    (parse : SymbolInfo → Option TradingRule) (info : SymbolInfo)
    (r : TradingRule) (hv : TYPE_MAP.lookup variant = some parse)
    (h : parse info = some r) :
    r.min_notional_value.isSome = true ↔
      (variant = "spot" ∨ variant = "usdt_futures") := by
  rcases TYPE_MAP_lookup_cases variant parse hv with ⟨hvar, hp⟩ | ⟨hvar, hp⟩ | ⟨hvar, hp⟩ <;>
    subst hvar <;> subst hp
  · simp only [_parse_usdt_futures_syminfo, Bind.bind, Option.bind_eq_some,
      Option.some.injEq] at h
    obtain ⟨ct, _, st, _, ma, _, pt, _, ls, _, mnv, _, heq⟩ := h
    subst heq
    simp
  · simp only [_parse_coin_futures_syminfo, Bind.bind, Option.bind_eq_some,
      Option.some.injEq] at h
    obtain ⟨ct, _, st, _, ma, _, pt, _, ls, _, heq⟩ := h
    subst heq
    simp
  · simp only [_parse_spot_syminfo, Bind.bind, Option.bind_eq_some,
      Option.some.injEq] at h
    obtain ⟨st, _, pt, _, ls, _, mnv, _, heq⟩ := h
    subst heq
    simp


/-- Witness for C4: the spec's USDT-futures example record parses to a rule
carrying `min_notional_value`, and the variant is one of the two. -/
theorem min_notional_value_presence_iff_witness :
    (TYPE_MAP.lookup "usdt_futures" = some _parse_usdt_futures_syminfo ∧
      _parse_usdt_futures_syminfo c3goodInfo = some c3goodRule) ∧
    (("usdt_futures" : String) = "spot" ∨ ("usdt_futures" : String) = "usdt_futures") :=
  ⟨⟨rfl, c3goodInfo_parses⟩,
    (min_notional_value_presence_iff "usdt_futures" _parse_usdt_futures_syminfo
      c3goodInfo c3goodRule rfl c3goodInfo_parses).mp (by decide)⟩

/-- A filters list with no entry of type `ftype` makes every
`_get_from_filters` lookup for `ftype` yield `none`. -/
theorem get_from_filters_none (info : SymbolInfo) (ftype : String)
    (hm : ∀ f ∈ info.filters, f.filterType ≠ ftype) :
    ∀ field, _get_from_filters info.filters ftype field = none := by
  have hfind : info.filters.find? (fun f => f.filterType == ftype) = none :=
    List.find?_eq_none.mpr (fun f hf => by simpa using hm f hf)
  intro field
  simp [_get_from_filters, hfind]

/-- The USDT-futures parse fails when the tick-size lookup fails. -/
theorem usdt_parse_fails_no_price (info : SymbolInfo)
    (h : _get_from_filters info.filters "PRICE_FILTER" "tickSize" = none) :
    _parse_usdt_futures_syminfo info = none := by
  cases hct : info.contractType <;> cases hst : info.status <;>
    cases hma : info.marginAsset <;>
    simp [_parse_usdt_futures_syminfo, hct, hst, hma, h]

/-- The USDT-futures parse fails when the step-size lookup fails. -/
theorem usdt_parse_fails_no_lot (info : SymbolInfo)
    (h : _get_from_filters info.filters "LOT_SIZE" "stepSize" = none) :
    _parse_usdt_futures_syminfo info = none := by
  cases hct : info.contractType <;> cases hst : info.status <;>
    cases hma : info.marginAsset <;>
    cases hpt : (_get_from_filters info.filters "PRICE_FILTER" "tickSize").bind
      Decimal <;>
    simp [_parse_usdt_futures_syminfo, hct, hst, hma, hpt, h]

/-- The USDT-futures parse fails when the notional lookup fails. -/
theorem usdt_parse_fails_no_notional (info : SymbolInfo)
    (h : _get_from_filters info.filters "MIN_NOTIONAL" "notional" = none) :
    _parse_usdt_futures_syminfo info = none := by
  cases hct : info.contractType <;> cases hst : info.status <;>
    cases hma : info.marginAsset <;>
    cases hpt : (_get_from_filters info.filters "PRICE_FILTER" "tickSize").bind
      Decimal <;>
    cases hls : (_get_from_filters info.filters "LOT_SIZE" "stepSize").bind
      Decimal <;>
    simp [_parse_usdt_futures_syminfo, hct, hst, hma, hpt, hls, h]

/-- The coin-futures parse fails when the tick-size lookup fails. -/
theorem coin_parse_fails_no_price (info : SymbolInfo)
    (h : _get_from_filters info.filters "PRICE_FILTER" "tickSize" = none) :
    _parse_coin_futures_syminfo info = none := by
  cases hct : info.contractType <;> cases hst : info.contractStatus <;>
    cases hma : info.marginAsset <;>
    simp [_parse_coin_futures_syminfo, hct, hst, hma, h]

/-- The spot parse fails when the tick-size lookup fails. -/
theorem spot_parse_fails_no_price (info : SymbolInfo)
    (h : _get_from_filters info.filters "PRICE_FILTER" "tickSize" = none) :
    _parse_spot_syminfo info = none := by
  cases hst : info.status <;> simp [_parse_spot_syminfo, hst, h]

/-- The spot parse fails when the step-size lookup fails. -/
theorem spot_parse_fails_no_lot (info : SymbolInfo)
    (h : _get_from_filters info.filters "LOT_SIZE" "stepSize" = none) :
    _parse_spot_syminfo info = none := by
  cases hst : info.status <;>
    cases hpt : (_get_from_filters info.filters "PRICE_FILTER" "tickSize").bind
      Decimal <;>
    simp [_parse_spot_syminfo, hst, hpt, h]

/-- The spot parse fails when the min-notional lookup fails. -/
theorem spot_parse_fails_no_notional (info : SymbolInfo)
    (h : _get_from_filters info.filters "NOTIONAL" "minNotional" = none) :
    _parse_spot_syminfo info = none := by
  cases hst : info.status <;>
    cases hpt : (_get_from_filters info.filters "PRICE_FILTER" "tickSize").bind
      Decimal <;>
    cases hls : (_get_from_filters info.filters "LOT_SIZE" "stepSize").bind
      Decimal <;>
    simp [_parse_spot_syminfo, hst, hpt, hls, h]

/-- C5: a symbol-info record whose filters list has no entry of a filter
type required by a venue variant makes that variant's parser fail
(`none`, the raised exception) instead of returning a rule with a
defaulted or absent field.  The required types are `PRICE_FILTER`,
`LOT_SIZE` and `MIN_NOTIONAL` for `usdt_futures`; `PRICE_FILTER` for
`coin_futures` (its lot size comes from `contractSize`); and
`PRICE_FILTER`, `LOT_SIZE` and `NOTIONAL` for `spot`. -/
theorem missing_required_filter_parse_fails (info : SymbolInfo)
    (ftype : String) (hm : ∀ f ∈ info.filters, f.filterType ≠ ftype) :
    ((ftype = "PRICE_FILTER" ∨ ftype = "LOT_SIZE" ∨ ftype = "MIN_NOTIONAL") →
      _parse_usdt_futures_syminfo info = none) ∧
    (ftype = "PRICE_FILTER" → _parse_coin_futures_syminfo info = none) ∧
    ((ftype = "PRICE_FILTER" ∨ ftype = "LOT_SIZE" ∨ ftype = "NOTIONAL") →
      _parse_spot_syminfo info = none) := by
  have hget := get_from_filters_none info ftype hm
  refine ⟨?_, ?_, ?_⟩
  · rintro (rfl | rfl | rfl)
    · exact usdt_parse_fails_no_price info (hget _)
    · exact usdt_parse_fails_no_lot info (hget _)
    · exact usdt_parse_fails_no_notional info (hget _)
  · rintro rfl
    exact coin_parse_fails_no_price info (hget _)
  · rintro (rfl | rfl | rfl)
    · exact spot_parse_fails_no_price info (hget _)
    · exact spot_parse_fails_no_lot info (hget _)
    · exact spot_parse_fails_no_notional info (hget _)

/-- Witness for C5 at two concrete records: one with no `PRICE_FILTER`
entry (all three parsers fail) and one missing only `LOT_SIZE` (the two
parsers that require it fail). -/
theorem missing_required_filter_parse_fails_witness :
    ((∀ f ∈ c5info.filters, f.filterType ≠ "PRICE_FILTER") ∧
      _parse_usdt_futures_syminfo c5info = none ∧
      _parse_coin_futures_syminfo c5info = none ∧
      _parse_spot_syminfo c5info = none) ∧
    ((∀ f ∈ c5infoNoLot.filters, f.filterType ≠ "LOT_SIZE") ∧
      _parse_usdt_futures_syminfo c5infoNoLot = none ∧
      _parse_spot_syminfo c5infoNoLot = none) :=
  ⟨⟨by decide,
    (missing_required_filter_parse_fails c5info "PRICE_FILTER"
      (by decide)).1 (Or.inl rfl),
    (missing_required_filter_parse_fails c5info "PRICE_FILTER"
      (by decide)).2.1 rfl,
    (missing_required_filter_parse_fails c5info "PRICE_FILTER"
      (by decide)).2.2 (Or.inl rfl)⟩,
   ⟨by decide,
    (missing_required_filter_parse_fails c5infoNoLot "LOT_SIZE"
      (by decide)).1 (Or.inr (Or.inl rfl)),
    (missing_required_filter_parse_fails c5infoNoLot "LOT_SIZE"
      (by decide)).2.2 (Or.inr (Or.inl rfl))⟩⟩

/-- C6: `get_funding_rate` on a spot-bound fetcher yields the
`RuntimeError` deterministically, whatever the transport collaborator —
the error is produced without consulting any request operation of
`market_api`, in particular not `aioreq_premium_index`. -/
theorem get_funding_rate_spot_fails_before_transport (api : MarketApi)
    (parse : SymbolInfo → Option TradingRule) :
    (BinanceFetcher.mk "spot" api parse).get_funding_rate
      = Except.error "Cannot request funding rate for spot" := rfl

/-- C7: on a non-spot fetcher, `get_funding_rate` maps each premium-index
entry independently to a row with its symbol and the numeric coercion of
its `lastFundingRate`; an entry whose string fails parsing yields the
missing sentinel (`fundingRate = none`) in its row without disturbing the
other rows or failing the batch. -/
theorem get_funding_rate_coerces_per_row (self : BinanceFetcher)
    (h : self.trade_type ≠ "spot") :
    self.get_funding_rate = Except.ok
      ((self.market_api.aioreq_premium_index ()).map (fun d =>
        { symbol := d.symbol,
          fundingRate := pd_to_numeric_coerce d.lastFundingRate })) := by
  simp [BinanceFetcher.get_funding_rate, h]

/-- Witness for C7 on the spec's example listing: `"0.0001"` parses to
`0.0001` and the placeholder `"-"` becomes the missing sentinel. -/
theorem get_funding_rate_coerces_per_row_witness :
    c7fetcher.trade_type ≠ "spot" ∧
    c7fetcher.get_funding_rate = Except.ok
      [{ symbol := "BTCUSDT", fundingRate := some (1/10000) },
       { symbol := "XYZUSDT", fundingRate := none }] :=
  ⟨by decide,
    (get_funding_rate_coerces_per_row c7fetcher (by decide)).trans (by
      simp +decide [c7fetcher, c7api, pd_to_numeric_coerce, parseDecimalString,
        parseUnsignedDecimal, digitsToNat]
      try norm_num)⟩

/-- C8: constructing a fetcher with a venue type outside the three
supported tags fails with the `ValueError`, for every transport factory —
the error does not depend on the factory or on any request operation of
the created `MarketApi`. -/
theorem init_unsupported_type_fails (type_ : String)
    (create_binance_market_api : String → MarketApi)
    (h1 : type_ ≠ "usdt_futures") (h2 : type_ ≠ "coin_futures")
    (h3 : type_ ≠ "spot") :
    BinanceFetcher.init type_ create_binance_market_api
      = Except.error ("Type " ++ type_ ++ " not supported") := by
  have e1 : (type_ == "usdt_futures") = false := beq_eq_false_iff_ne.mpr h1
  have e2 : (type_ == "coin_futures") = false := beq_eq_false_iff_ne.mpr h2
  have e3 : (type_ == "spot") = false := beq_eq_false_iff_ne.mpr h3
  have hl : TYPE_MAP.lookup type_ = none := by
    simp [TYPE_MAP, List.lookup, e1, e2, e3]
  simp [BinanceFetcher.init, hl]

/-- Witness for C8 at the unsupported venue type "margin". -/
theorem init_unsupported_type_fails_witness :
    (("margin" : String) ≠ "usdt_futures" ∧ ("margin" : String) ≠ "coin_futures" ∧
      ("margin" : String) ≠ "spot") ∧
    BinanceFetcher.init "margin" (fun _ => dummyApi)
      = Except.error ("Type " ++ "margin" ++ " not supported") :=
  ⟨⟨by decide, by decide, by decide⟩,
    init_unsupported_type_fails "margin" (fun _ => dummyApi)
      (by decide) (by decide) (by decide)⟩

/-- C3 counterexample: the USDT-futures parser accepts a record whose
`PRICE_FILTER` carries `tickSize` "0" and returns `price_tick = 0`, which
is not strictly positive — the parsers perform no positivity check. -/
theorem parse_syminfo_zero_tick_counterexample :
    (_parse_usdt_futures_syminfo c3info).map TradingRule.price_tick = some 0 ∧
    ¬ (0 : ℚ) < 0 := by
  constructor
  · simp +decide [_parse_usdt_futures_syminfo, _get_from_filters, Decimal,
      parseDecimalString, parseUnsignedDecimal, digitsToNat, c3info]
    try norm_num
  · simp

/-- `positiveDecimalStr` transfers to the parsed value. -/
theorem positiveDecimalStr_spec {o : Option String} {s : String} {q : ℚ}
    (h : positiveDecimalStr o = true) (ho : o = some s)
    (hq : Decimal s = some q) : 0 < q := by
  subst ho
  simp only [positiveDecimalStr, hq] at h
  exact of_decide_eq_true h

/-- C3 (amended): the parsers copy `price_tick` and `lot_size` verbatim
from the payload's decimal strings, so the outputs are strictly positive
whenever the source strings denote strictly positive decimals — but no
variant checks this itself (see the counterexample for `tickSize` "0"). -/
theorem parse_syminfo_positive_amended (variant : String)
    (parse : SymbolInfo → Option TradingRule) (info : SymbolInfo)
    (r : TradingRule) (hv : TYPE_MAP.lookup variant = some parse)
    (h : parse info = some r)
    (hp : positiveDecimalStr
      (_get_from_filters info.filters "PRICE_FILTER" "tickSize") = true)
    (hl : positiveDecimalStr
      (_get_from_filters info.filters "LOT_SIZE" "stepSize") = true)
    (hc : positiveDecimalStr info.contractSize = true) :
    0 < r.price_tick ∧ 0 < r.lot_size := by
  rcases TYPE_MAP_lookup_cases variant parse hv with
    ⟨_, hpf⟩ | ⟨_, hpf⟩ | ⟨_, hpf⟩ <;> subst hpf
  · simp only [_parse_usdt_futures_syminfo, Bind.bind, Option.bind_eq_some,
      Option.some.injEq] at h
    obtain ⟨ct, _, st, _, ma, _, pt, ⟨s1, hs1, hd1⟩, ls, ⟨s2, hs2, hd2⟩,
      mnv, _, heq⟩ := h
    subst heq
    exact ⟨positiveDecimalStr_spec hp hs1 hd1, positiveDecimalStr_spec hl hs2 hd2⟩
  · simp only [_parse_coin_futures_syminfo, Bind.bind, Option.bind_eq_some,
      Option.some.injEq] at h
    obtain ⟨ct, _, st, _, ma, _, pt, ⟨s1, hs1, hd1⟩, ls, ⟨s2, hs2, hd2⟩, heq⟩ := h
    subst heq
    exact ⟨positiveDecimalStr_spec hp hs1 hd1, positiveDecimalStr_spec hc hs2 hd2⟩
  · simp only [_parse_spot_syminfo, Bind.bind, Option.bind_eq_some,
      Option.some.injEq] at h
    obtain ⟨st, _, pt, ⟨s1, hs1, hd1⟩, ls, ⟨s2, hs2, hd2⟩, mnv, _, heq⟩ := h
    subst heq
    exact ⟨positiveDecimalStr_spec hp hs1 hd1, positiveDecimalStr_spec hl hs2 hd2⟩

/-- The example record's tick size denotes a positive decimal. -/
theorem c3good_tick_pos :
    positiveDecimalStr
      (_get_from_filters c3goodInfo.filters "PRICE_FILTER" "tickSize") = true := by
  simp +decide [positiveDecimalStr, _get_from_filters, Decimal,
    parseDecimalString, parseUnsignedDecimal, digitsToNat, c3goodInfo,
    decide_eq_true_eq]
  try norm_num

/-- The example record's step size denotes a positive decimal. -/
theorem c3good_step_pos :
    positiveDecimalStr
      (_get_from_filters c3goodInfo.filters "LOT_SIZE" "stepSize") = true := by
  simp +decide [positiveDecimalStr, _get_from_filters, Decimal,
    parseDecimalString, parseUnsignedDecimal, digitsToNat, c3goodInfo,
    decide_eq_true_eq]
  try norm_num

/-- The example record has no `contractSize` key. -/
theorem c3good_size_pos : positiveDecimalStr c3goodInfo.contractSize = true := by
  simp +decide [positiveDecimalStr, c3goodInfo]

/-- Witness for C3 (amended) on the spec's example record. -/
theorem parse_syminfo_positive_amended_witness :
    (TYPE_MAP.lookup "usdt_futures" = some _parse_usdt_futures_syminfo ∧
      _parse_usdt_futures_syminfo c3goodInfo = some c3goodRule ∧
      positiveDecimalStr
        (_get_from_filters c3goodInfo.filters "PRICE_FILTER" "tickSize") = true ∧
      positiveDecimalStr
        (_get_from_filters c3goodInfo.filters "LOT_SIZE" "stepSize") = true ∧
      positiveDecimalStr c3goodInfo.contractSize = true) ∧
    (0 < c3goodRule.price_tick ∧ 0 < c3goodRule.lot_size) :=
  ⟨⟨rfl, c3goodInfo_parses, c3good_tick_pos, c3good_step_pos, c3good_size_pos⟩,
   parse_syminfo_positive_amended "usdt_futures" _parse_usdt_futures_syminfo
     c3goodInfo c3goodRule rfl c3goodInfo_parses
     c3good_tick_pos c3good_step_pos c3good_size_pos⟩

/-- `traverseOption` preserves any per-element key that `f` preserves. -/
theorem traverseOption_map_key {α β γ : Type} (f : α → Option β)
    (g : α → γ) (g' : β → γ) (hpres : ∀ a b, f a = some b → g' b = g a) :
    ∀ (l : List α) (l' : List β), traverseOption f l = some l' →
      l'.map g' = l.map g
  | [], l', h => by
    simp only [traverseOption, Option.some.injEq] at h
    subst h
    rfl
  | a :: l, l', h => by
    simp only [traverseOption, Bind.bind, Option.bind_eq_some,
      Option.some.injEq] at h
    obtain ⟨b, hb, t, ht, heq⟩ := h
    subst heq
    simp [hpres a b hb, traverseOption_map_key f g g' hpres l t ht]

/-- The original-pandas column typing keeps `candle_begin_time`. -/
theorem parseKlineFloat_begin (k : Kline) (p : ParsedKlineF)
    (h : parseKlineFloat k = some p) :
    p.candle_begin_time = k.candle_begin_time := by
  simp only [parseKlineFloat, Bind.bind, Option.bind_eq_some,
    Option.some.injEq] at h
  obtain ⟨o, _, h2, _, l2, _, c2, _, v2, _, q2, _, t2, _, u2, _, heq⟩ := h
  subst heq
  rfl

/-- The `dtypes`/schema column typing keeps `candle_begin_time`. -/
theorem parseKlineTyped_begin (k : Kline) (p : ParsedKline)
    (h : parseKlineTyped k = some p) :
    p.candle_begin_time = k.candle_begin_time := by
  simp only [parseKlineTyped, Bind.bind, Option.bind_eq_some,
    Option.some.injEq] at h
  obtain ⟨o, _, h2, _, l2, _, c2, _, v2, _, q2, _, t2, _, u2, _, heq⟩ := h
  subst heq
  rfl

/-- Inversion of `get_candle_with_original_pandas`. -/
theorem get_candle_original_inv (klines : List Kline) (interval : String)
    (rows : List CandleTableRow)
    (h : get_candle_with_original_pandas klines interval = some rows) :
    ∃ parsed delta, traverseOption parseKlineFloat klines = some parsed ∧
      convert_interval_to_timedelta interval = some delta ∧
      rows = parsed.map (fun p =>
        ({ candle_end_time := p.candle_begin_time + delta
           candle_begin_time := p.candle_begin_time
           open_ := p.open_
           high := p.high
           low := p.low
           close := p.close
           volume := p.volume
           quote_volume := p.quote_volume
           trade_num := p.trade_num
           taker_buy_base_asset_volume := p.taker_buy_base_asset_volume
           taker_buy_quote_asset_volume := p.taker_buy_quote_asset_volume } :
          CandleTableRow)) := by
  simp only [get_candle_with_original_pandas, Bind.bind, Option.bind_eq_some,
    Option.some.injEq] at h
  obtain ⟨parsed, hp, delta, hd, heq⟩ := h
  exact ⟨parsed, delta, hp, hd, heq.symm⟩

/-- The reverse-order example batch normalizes, keeping its input order. -/
theorem cKlines_normalizes :
    get_candle_with_original_pandas cKlines "1h" = some [cRow1, cRow2] := by
  simp +decide [get_candle_with_original_pandas, traverseOption, parseKlineFloat,
    pyFloat, parseDecimalString, parseUnsignedDecimal, digitsToNat,
    convert_interval_to_timedelta, cKlines, cK1, cK2, cRow1, cRow2]

/-- The sorted example batch normalizes, keeping its input order. -/
theorem cKlinesSorted_normalizes :
    get_candle_with_original_pandas cKlinesSorted "1h" = some [cRow2, cRow1] := by
  simp +decide [get_candle_with_original_pandas, traverseOption, parseKlineFloat,
    pyFloat, parseDecimalString, parseUnsignedDecimal, digitsToNat,
    convert_interval_to_timedelta, cKlinesSorted, cK1, cK2, cRow1, cRow2]

/-- C2: for every row of the table `get_candle_with_original_pandas`
returns, `candle_end_time - candle_begin_time` equals the duration the
interval-to-duration collaborator assigns to the tag; `candle_end_time`
(the first field of `CandleTableRow`, i.e. the `set_index` column) equals
`candle_begin_time + delta`. -/
theorem candle_end_minus_begin_eq_interval (klines : List Kline)
    (interval : String) (delta : Int) (rows : List CandleTableRow)
    (hd : convert_interval_to_timedelta interval = some delta)
    (h : get_candle_with_original_pandas klines interval = some rows) :
    ∀ r ∈ rows, r.candle_end_time - r.candle_begin_time = delta ∧
      r.candle_end_time = r.candle_begin_time + delta := by
  obtain ⟨parsed, d, hp, hd2, heq⟩ := get_candle_original_inv klines interval rows h
  rw [hd] at hd2
  obtain rfl : delta = d := (Option.some.injEq _ _).mp hd2
  subst heq
  intro r hr
  simp only [List.mem_map] at hr
  obtain ⟨p, _, rfl⟩ := hr
  constructor
  · simp
  · rfl

/-- Witness for C2 on the example batch with interval "1h". -/
theorem candle_end_minus_begin_eq_interval_witness :
    (convert_interval_to_timedelta "1h" = some 3600000 ∧
      get_candle_with_original_pandas cKlines "1h" = some [cRow1, cRow2] ∧
      cRow1 ∈ [cRow1, cRow2]) ∧
    (cRow1.candle_end_time - cRow1.candle_begin_time = 3600000 ∧
      cRow1.candle_end_time = cRow1.candle_begin_time + 3600000) :=
  ⟨⟨rfl, cKlines_normalizes, by simp⟩,
    candle_end_minus_begin_eq_interval cKlines "1h" 3600000 [cRow1, cRow2]
      rfl cKlines_normalizes cRow1 (by simp)⟩

/-- C1 counterexample: `get_candle`'s normalization step
(`get_candle_with_original_pandas`) does not sort; on the spec's
reverse-order one-hour example it returns begin-times 3_600_000 then 0,
not the claimed 0 then 3_600_000 (the output is not non-decreasing). -/
theorem get_candle_original_not_sorted_counterexample :
    (get_candle_with_original_pandas cKlines "1h").map
        (fun rows => rows.map CandleTableRow.candle_begin_time)
      = some [3600000, 0] ∧
    ¬ (3600000 : Int) ≤ 0 := by
  refine ⟨?_, by decide⟩
  rw [cKlines_normalizes]
  simp [cRow1, cRow2]

/-- C1 (amended): `get_candle`'s normalization step unconditionally
preserves the input row order — output begin-times are exactly the input
begin-times in input order, for every batch — so its output is sorted
non-decreasing by `candle_begin_time` exactly when the input batch
already is (both directions).  (The sorted-for-any-permutation property
belongs to the unused variants `get_candle_with_pandas` /
`get_candle_with_polar`; see C9.) -/
theorem get_candle_original_preserves_order (klines : List Kline)
    (interval : String) (rows : List CandleTableRow)
    (h : get_candle_with_original_pandas klines interval = some rows) :
    rows.map CandleTableRow.candle_begin_time
        = klines.map Kline.candle_begin_time ∧
    ((rows.map CandleTableRow.candle_begin_time).Sorted (· ≤ ·) ↔
      (klines.map Kline.candle_begin_time).Sorted (· ≤ ·)) := by
  obtain ⟨parsed, d, hp, _, heq⟩ := get_candle_original_inv klines interval rows h
  subst heq
  have h1 : (parsed.map (fun p =>
      ({ candle_end_time := p.candle_begin_time + d
         candle_begin_time := p.candle_begin_time
         open_ := p.open_
         high := p.high
         low := p.low
         close := p.close
         volume := p.volume
         quote_volume := p.quote_volume
         trade_num := p.trade_num
         taker_buy_base_asset_volume := p.taker_buy_base_asset_volume
         taker_buy_quote_asset_volume := p.taker_buy_quote_asset_volume } :
        CandleTableRow))).map CandleTableRow.candle_begin_time
      = parsed.map ParsedKlineF.candle_begin_time := by
    rw [List.map_map]
    rfl
  have h2 : parsed.map ParsedKlineF.candle_begin_time
      = klines.map Kline.candle_begin_time :=
    traverseOption_map_key parseKlineFloat Kline.candle_begin_time
      ParsedKlineF.candle_begin_time parseKlineFloat_begin klines parsed hp
  refine ⟨h1.trans h2, ?_⟩
  rw [h1, h2]

/-- Witness for C1 (amended) on the reverse-order example batch: order is
preserved, and the unsorted input is reflected by an unsorted output. -/
theorem get_candle_original_preserves_order_witness :
    get_candle_with_original_pandas cKlines "1h" = some [cRow1, cRow2] ∧
    ([cRow1, cRow2].map CandleTableRow.candle_begin_time
        = cKlines.map Kline.candle_begin_time ∧
      (([cRow1, cRow2].map CandleTableRow.candle_begin_time).Sorted (· ≤ ·) ↔
        (cKlines.map Kline.candle_begin_time).Sorted (· ≤ ·))) :=
  ⟨cKlines_normalizes,
    get_candle_original_preserves_order cKlines "1h" [cRow1, cRow2]
      cKlines_normalizes⟩

/-- Lookup in the dict built by the `get_exchange_info` loop: the binding
for `s` is the parse of the last listing entry bearing symbol `s`, the
initial dict's binding when there is none. -/
theorem buildDict_lookup (parse : SymbolInfo → Option TradingRule) (s : String) :
    ∀ (l : List SymbolInfo) (init m : String → Option TradingRule),
      buildDict parse l init = some m →
      m s = match (l.filter (fun i => i.symbol == s)).getLast? with
            | some i => parse i
            | none => init s
  | [], init, m, h => by
    simp only [buildDict, Option.some.injEq] at h
    subst h
    simp
  | info :: rest, init, m, h => by
    simp only [buildDict, Bind.bind, Option.bind_eq_some] at h
    obtain ⟨rule, hrule, hrest⟩ := h
    have ih := buildDict_lookup parse s rest _ m hrest
    rw [List.filter_cons]
    by_cases hsym : (info.symbol == s) = true
    · rw [if_pos hsym]
      cases hrf : rest.filter (fun i => i.symbol == s) with
      | nil =>
        rw [hrf] at ih
        simp only [List.getLast?_nil] at ih
        have hss : s = info.symbol := (eq_of_beq hsym).symm
        rw [ih, if_pos hss]
        exact hrule.symm
      | cons j t =>
        rw [hrf] at ih
        rw [List.getLast?_cons_cons]
        cases hg : (j :: t).getLast? with
        | none => simp at hg
        | some i =>
          rw [hg] at ih
          exact ih
    · rw [if_neg hsym]
      cases hrf : rest.filter (fun i => i.symbol == s) with
      | nil =>
        rw [hrf] at ih
        simp only [List.getLast?_nil] at ih ⊢
        have hss : ¬ s = info.symbol := fun he => hsym (by simp [he])
        rw [ih, if_neg hss]
      | cons j t =>
        rw [hrf] at ih
        cases hg : (j :: t).getLast? with
        | none => simp at hg
        | some i =>
          rw [hg] at ih
          exact ih

/-- C10: for every exchange-info payload on which `get_exchange_info`
succeeds, the returned mapping sends each symbol string to the parse of
the last listing entry bearing that symbol (later duplicates overwrite
earlier ones), and to nothing when no entry bears it. -/
theorem get_exchange_info_last_entry_wins (self : BinanceFetcher)
    (h : (self.get_exchange_info).isSome = true) (s : String) :
    (self.get_exchange_info.getD (fun _ => none)) s
      = ((self.market_api.aioreq_exchange_info ()).filter
          (fun i => i.symbol == s)).getLast?.bind self.syminfo_parse_func := by
  obtain ⟨m, hm⟩ := Option.isSome_iff_exists.mp h
  have hb : buildDict self.syminfo_parse_func
      (self.market_api.aioreq_exchange_info ()) (fun _ => none) = some m := hm
  have key := buildDict_lookup self.syminfo_parse_func s
    (self.market_api.aioreq_exchange_info ()) (fun _ => none) m hb
  rw [hm]
  simp only [Option.getD_some]
  cases hlast : ((self.market_api.aioreq_exchange_info ()).filter
      (fun i => i.symbol == s)).getLast? with
  | none =>
    rw [hlast] at key
    simpa using key
  | some i =>
    rw [hlast] at key
    simpa using key

/-- Witness for C10: with a listing repeating symbol "AAA", the mapping
returns the parse of the second (last) "AAA" entry. -/
theorem get_exchange_info_last_entry_wins_witness :
    ((c10fetcher.get_exchange_info).isSome = true) ∧
    (((c10fetcher.get_exchange_info).getD (fun _ => none)) "AAA"
        = _parse_spot_syminfo c10infoA2 ∧
      _parse_spot_syminfo c10infoA2 = some c10ruleA2) :=
  ⟨rfl,
    (get_exchange_info_last_entry_wins c10fetcher rfl "AAA").trans (by rfl),
    by simp +decide [_parse_spot_syminfo, _get_from_filters, Decimal,
        parseDecimalString, parseUnsignedDecimal, digitsToNat, c10infoA2,
        c10ruleA2]⟩

/-- A list sorted by non-strict begin-time whose begin-times are pairwise
distinct is sorted by strict begin-time. -/
theorem pairwise_beginLT_of_sorted_nodup (l : List ParsedKline)
    (hs : List.Sorted beginLE l)
    (hnd : (l.map ParsedKline.candle_begin_time).Nodup) :
    List.Pairwise beginLT l := by
  have hne : l.Pairwise
      (fun a b => a.candle_begin_time ≠ b.candle_begin_time) :=
    List.pairwise_map.mp hnd
  exact (List.Pairwise.and hs hne).imp (fun h => lt_of_le_of_ne h.1 h.2)

/-- The polars-route sort produces a `beginLE`-sorted list. -/
theorem sorted_mergeSort_beginLE (l : List ParsedKline) :
    List.Sorted beginLE (l.mergeSort (fun a b => decide (beginLE a b))) := by
  have hpw := @List.sorted_mergeSort ParsedKline
    (fun a b => decide (beginLE a b))
    (fun a b c h1 h2 => decide_eq_true
      (le_trans (of_decide_eq_true h1) (of_decide_eq_true h2)))
    (fun a b => by
      simpa [Bool.or_eq_true, decide_eq_true_eq] using
        Int.le_total a.candle_begin_time b.candle_begin_time)
    l
  exact hpw.imp (fun h => of_decide_eq_true h)

/-- C9: on any payload whose begin-times are pairwise distinct (as venue
payloads are, per the spec's duplicate-free invariant), the two sorting
normalization variants `get_candle_with_pandas` and
`get_candle_with_polar` return identical tables: same rows in the same
order with the same `candle_end_time` index (and identical column
typing, by construction of `CandleTableRowI`). -/
theorem get_candle_sorting_variants_agree (klines : List Kline)
    (interval : String)
    (h : (klines.map Kline.candle_begin_time).Nodup) :
    get_candle_with_pandas klines interval
      = get_candle_with_polar klines interval := by
  unfold get_candle_with_pandas get_candle_with_polar
  cases hp : traverseOption parseKlineTyped klines with
  | none => rfl
  | some parsed =>
    have hkeys : parsed.map ParsedKline.candle_begin_time
        = klines.map Kline.candle_begin_time :=
      traverseOption_map_key parseKlineTyped Kline.candle_begin_time
        ParsedKline.candle_begin_time parseKlineTyped_begin klines parsed hp
    have hnd : (parsed.map ParsedKline.candle_begin_time).Nodup := by
      rw [hkeys]
      exact h
    have hperm : List.Perm (List.insertionSort beginLE parsed)
        (parsed.mergeSort (fun a b => decide (beginLE a b))) :=
      (List.perm_insertionSort beginLE parsed).trans
        (List.mergeSort_perm parsed _).symm
    have hs1 : List.Pairwise beginLT (List.insertionSort beginLE parsed) :=
      pairwise_beginLT_of_sorted_nodup _
        (List.sorted_insertionSort beginLE parsed)
        (((List.perm_insertionSort beginLE parsed).map
          ParsedKline.candle_begin_time).nodup_iff.mpr hnd)
    have hs2 : List.Pairwise beginLT
        (parsed.mergeSort (fun a b => decide (beginLE a b))) :=
      pairwise_beginLT_of_sorted_nodup _
        (sorted_mergeSort_beginLE parsed)
        (((List.mergeSort_perm parsed _).map
          ParsedKline.candle_begin_time).nodup_iff.mpr hnd)
    have hsorteq : List.insertionSort beginLE parsed
        = parsed.mergeSort (fun a b => decide (beginLE a b)) :=
      List.eq_of_perm_of_sorted hperm hs1 hs2
    simp only [Bind.bind, Option.some_bind]
    rw [hsorteq]

/-- Witness for C9 on the example batch (distinct begin-times). -/
theorem get_candle_sorting_variants_agree_witness :
    (cKlines.map Kline.candle_begin_time).Nodup ∧
    get_candle_with_pandas cKlines "1h" = get_candle_with_polar cKlines "1h" :=
  ⟨by decide, get_candle_sorting_variants_agree cKlines "1h" (by decide)⟩
